import Mathlib

set_option maxRecDepth 8000

/-!
Verification of the `bank_API` Django application (models.py, views.py).

The data model and operations below are a shallow embedding of the source:

* `Account` / `Transaction` mirror the Django models (the auto-managed
  timestamp fields, which no claim depends on, are omitted; money is
  modelled as `Rat`).
* `Account.clean`, `Account.save`, `Account.update_balance` and the
  transaction save pipeline follow `models.py` line by line.
* The state-level operations (`createAccount`, `updateAccount`,
  `deleteAccount`, `createTransaction`, `updateTransaction`,
  `deleteTransaction`) mirror the view classes in `views.py`: form
  validation (unique keys, foreign-key resolution) followed by the model
  `save`, and straight row deletion for the delete views.
* Each operation returns an `OpResult`: the persisted state after the
  operation, an optional error, and the trace of balance mutations the
  operation performed through `Account.update_balance`.
-/

inductive AccountType where
  | Savings
  | Checking
deriving DecidableEq, Repr

inductive TransactionType where
  | Deposit
  | Withdraw
deriving DecidableEq, Repr

/-- The `Account` model of `models.py` (timestamps omitted). -/
structure Account where
  account_number : String
  balance : Rat
  customer_name : String
  account_type : AccountType
deriving DecidableEq, Repr

/-- The `Transaction` model of `models.py` (timestamp omitted). The
foreign key to `Account` is modelled through the unique
`account_number` key. -/
structure Transaction where
  transaction_id : String
  account_number : String
  amount : Rat
  transaction_type : TransactionType
  description : String
  status : String
deriving DecidableEq, Repr

/-- Error kinds of the system, following the spec's taxonomy; each view
failure (`ValidationError`, `ValueError`, 404) is mapped to its kind. -/
inductive BankError where
  | InvalidBalance
  | InvalidAmount
  | InsufficientFunds
  | NotFound
  | AccountNotFound
  | DuplicateAccount
  | DuplicateTransaction
  | InvalidField
deriving DecidableEq, Repr

/-- The persisted database state: the `accounts` table and the
`transactions` table, rows in creation order. -/
structure BankState where
  accounts : List Account
  transactions : List Transaction
deriving DecidableEq, Repr

/-- Result of one operation: persisted state when the operation
returns, the error if it failed, and the trace of balance deltas that
were persisted through `Account.update_balance` calls. -/
structure OpResult where
  state : BankState
  error : Option BankError
  muts : List Rat
deriving DecidableEq, Repr

/-- Row lookup by the unique account number
(`get_object_or_404(queryset, account_number=...)` and foreign-key
resolution). -/
def findAccount (s : BankState) (num : String) : Option Account :=
  s.accounts.find? (fun b => b.account_number == num)

/-- Model of `Account.clean` of models.py: for a new row (`self.pk is None`)
a balance `≤ 0` raises `ValidationError`. -/
def Account.clean (isNew : Bool) (a : Account) : Option BankError :=
  if isNew ∧ a.balance ≤ 0 then some BankError.InvalidBalance else none

/-- Model of `Account.save` of models.py: a negative balance raises
`ValidationError` before the write; otherwise the record is persisted
as is. -/
def Account.save (a : Account) : Except BankError Account :=
  if a.balance < 0 then Except.error BankError.InvalidBalance
  else Except.ok a

/-- The signed balance effect of a transaction: `+amount` for a
Deposit, `-amount` for a Withdraw (the two branches of
`Account.update_balance`). -/
def signedEffect (t : Transaction) : Rat :=
  match t.transaction_type with
  | TransactionType.Deposit => t.amount
  | TransactionType.Withdraw => -t.amount

/-- Model of `Account.update_balance` of models.py: add the amount for a
Deposit, subtract it for a Withdraw, then `self.save()`. -/
def Account.update_balance (a : Account) (t : Transaction) : Except BankError Account :=
  let a2 :=
    match t.transaction_type with
    | TransactionType.Deposit => { a with balance := a.balance + t.amount }
    | TransactionType.Withdraw => { a with balance := a.balance - t.amount }
  Account.save a2

/-- Replace the account row holding key `num` (the UPDATE of a fetched
row in place). -/
def setAccountAt (l : List Account) (num : String) (a : Account) : List Account :=
  l.map (fun b => if b.account_number = num then a else b)

/-- Model of `AccountCreateView`: form validation (unique account number, then
`Account.clean` with no primary key) followed by `Account.save`, which
appends the new row. -/
def createAccount (s : BankState) (a : Account) : OpResult :=
  if ∃ b ∈ s.accounts, b.account_number = a.account_number then
    ⟨s, some BankError.DuplicateAccount, []⟩
  else
    match Account.clean true a with
    | some e => ⟨s, some e, []⟩
    | none =>
      match Account.save a with
      | Except.error e => ⟨s, some e, []⟩
      | Except.ok a2 => ⟨{ s with accounts := s.accounts ++ [a2] }, none, []⟩

/-- Model of `AccountUpdateView`: fetch the row (404 when absent), form
validation (`Account.clean` with an existing primary key), then
`Account.save` replaces the row. `num` is the fetched row's account
number; the saved record `a` carries the full new field set. -/
def updateAccount (s : BankState) (num : String) (a : Account) : OpResult :=
  match findAccount s num with
  | none => ⟨s, some BankError.NotFound, []⟩
  | some _old =>
    match Account.clean false a with
    | some e => ⟨s, some e, []⟩
    | none =>
      match Account.save a with
      | Except.error e => ⟨s, some e, []⟩
      | Except.ok a2 => ⟨{ s with accounts := setAccountAt s.accounts num a2 }, none, []⟩

/-- Model of `AccountDeleteView.post`: fetch by account number (404 when
absent), delete the row; the foreign key is declared
`on_delete=CASCADE`, so the account's transactions are deleted with
it. -/
def deleteAccount (s : BankState) (num : String) : OpResult :=
  match findAccount s num with
  | none => ⟨s, some BankError.NotFound, []⟩
  | some _a =>
    ⟨{ accounts := s.accounts.eraseP (fun b => b.account_number == num),
       transactions := s.transactions.filter (fun t => !(t.account_number == num)) },
     none, []⟩

/-- Model of `TransactionCreateView`: form validation (foreign key resolves,
unique transaction id), then `Transaction.save` of models.py: reject a
negative amount (`ValueError`), reject a Withdraw whose amount exceeds
the account's balance (`ValidationError`), `super().save()` persists
the row, and `self.account_number.update_balance(self)` applies the
effect. -/
def createTransaction (s : BankState) (t : Transaction) : OpResult :=
  match findAccount s t.account_number with
  | none => ⟨s, some BankError.AccountNotFound, []⟩
  | some acct =>
    if ∃ x ∈ s.transactions, x.transaction_id = t.transaction_id then
      ⟨s, some BankError.DuplicateTransaction, []⟩
    else if t.amount < 0 then
      ⟨s, some BankError.InvalidAmount, []⟩
    else if t.transaction_type = TransactionType.Withdraw ∧ acct.balance < t.amount then
      ⟨s, some BankError.InsufficientFunds, []⟩
    else
      let s1 : BankState := { s with transactions := s.transactions ++ [t] }
      match Account.update_balance acct t with
      | Except.error e => ⟨s1, some e, []⟩
      | Except.ok acct2 =>
        ⟨{ s1 with accounts := setAccountAt s1.accounts acct.account_number acct2 },
         none, [signedEffect t]⟩

/-- Model of `TransactionUpdateView`: fetch the row by primary key (here: by the
old transaction id `tid`; 404 when absent), form validation (foreign
key resolves, transaction id unique among the other rows), then
`Transaction.save` again: the same validation against the CURRENT
balance, `super().save()` now replaces the row in place, and
`update_balance` applies the NEW transaction's effect. The old row's
effect is not reversed anywhere in the source. -/
def updateTransaction (s : BankState) (tid : String) (t : Transaction) : OpResult :=
  match s.transactions.find? (fun x => x.transaction_id == tid) with
  | none => ⟨s, some BankError.NotFound, []⟩
  | some _old =>
    match findAccount s t.account_number with
    | none => ⟨s, some BankError.AccountNotFound, []⟩
    | some acct =>
      if ∃ x ∈ s.transactions, x.transaction_id = t.transaction_id ∧ x.transaction_id ≠ tid then
        ⟨s, some BankError.DuplicateTransaction, []⟩
      else if t.amount < 0 then
        ⟨s, some BankError.InvalidAmount, []⟩
      else if t.transaction_type = TransactionType.Withdraw ∧ acct.balance < t.amount then
        ⟨s, some BankError.InsufficientFunds, []⟩
      else
        let s1 : BankState :=
          { s with transactions :=
              s.transactions.map (fun x => if x.transaction_id = tid then t else x) }
        match Account.update_balance acct t with
        | Except.error e => ⟨s1, some e, []⟩
        | Except.ok acct2 =>
          ⟨{ s1 with accounts := setAccountAt s1.accounts acct.account_number acct2 },
           none, [signedEffect t]⟩

/-- Model of `TransactionDeleteView.post`: fetch by transaction id (404 when
absent), delete that row; nothing touches the account. -/
def deleteTransaction (s : BankState) (tid : String) : OpResult :=
  match s.transactions.find? (fun x => x.transaction_id == tid) with
  | none => ⟨s, some BankError.NotFound, []⟩
  | some _t =>
    ⟨{ s with transactions := s.transactions.eraseP (fun x => x.transaction_id == tid) },
     none, []⟩

/-- Modelled from the spec: `listTransactionsForAccount` has no
endpoint in the source (views.py and urls.py expose only
create/update/delete/detail views); per the spec it is read-only,
fails with `AccountNotFound` when the account number does not resolve,
and otherwise returns that account's transactions in creation order
(the `transactions` table is kept in creation order, so a filter
preserves it). -/
def listTransactionsForAccount (s : BankState) (num : String) :
    Except BankError (List Transaction) :=
  match findAccount s num with
  | none => Except.error BankError.AccountNotFound
  | some _a => Except.ok (s.transactions.filter (fun t => t.account_number == num))

/-- The commands of the system (§6 of the spec: the six mutating
operations). -/
inductive Cmd where
  | createAcc (a : Account)
  | updateAcc (num : String) (a : Account)
  | deleteAcc (num : String)
  | createTx (t : Transaction)
  | updateTx (tid : String) (t : Transaction)
  | deleteTx (tid : String)

/-- One step of the system: dispatch a command to its operation. -/
def applyCmd (s : BankState) (c : Cmd) : OpResult :=
  match c with
  | Cmd.createAcc a => createAccount s a
  | Cmd.updateAcc num a => updateAccount s num a
  | Cmd.deleteAcc num => deleteAccount s num
  | Cmd.createTx t => createTransaction s t
  | Cmd.updateTx tid t => updateTransaction s tid t
  | Cmd.deleteTx tid => deleteTransaction s tid

/-- Run a whole sequence of transaction creations, stopping at the
first failure. -/
def runCreates (s : BankState) : List Transaction → BankState × Option BankError
  | [] => (s, none)
  | t :: ts =>
    let r := createTransaction s t
    match r.error with
    | some e => (r.state, some e)
    | none => runCreates r.state ts

/-- Every persisted account row has a non-negative balance. -/
def goodState (s : BankState) : Prop :=
  ∀ a ∈ s.accounts, 0 ≤ a.balance

/-! ### Helper lemmas about row lookup and replacement -/

theorem find?_setAccountAt_self (l : List Account) (num : String) (a : Account)
    (ha : a.account_number = num)
    (h : (l.find? (fun b => b.account_number == num)).isSome = true) :
    (setAccountAt l num a).find? (fun b => b.account_number == num) = some a := by
  induction l with
  | nil => simp [List.find?] at h
  | cons b l ih =>
    by_cases hb : b.account_number = num
    · simp [setAccountAt, hb, List.find?_cons_of_pos, ha]
    · have hb2 : (b.account_number == num) = false := by
        simpa using hb
      have hset : setAccountAt (b :: l) num a = b :: setAccountAt l num a := by
        simp [setAccountAt, if_neg hb]
      rw [hset, List.find?_cons, hb2]
      rw [List.find?_cons, hb2] at h
      exact ih h

theorem mem_setAccountAt (l : List Account) (num : String) (a b : Account)
    (hb : b ∈ setAccountAt l num a) : b = a ∨ b ∈ l := by
  rcases List.mem_map.mp hb with ⟨x, hx, hxb⟩
  by_cases hxn : x.account_number = num
  · left
    rw [if_pos hxn] at hxb
    exact hxb.symm
  · right
    rw [if_neg hxn] at hxb
    exact hxb ▸ hx

theorem findAccount_mem (s : BankState) (num : String) (a : Account)
    (h : findAccount s num = some a) : a ∈ s.accounts :=
  List.mem_of_find?_eq_some h

theorem findAccount_key (s : BankState) (num : String) (a : Account)
    (h : findAccount s num = some a) : a.account_number = num := by
  have := List.find?_some h
  simpa using this

/-- Lemma: `Account.update_balance` succeeds exactly when the adjusted balance
is non-negative, and then returns the record with the signed effect
added to the balance. -/
theorem update_balance_ok (a : Account) (t : Transaction) (a2 : Account)
    (h : Account.update_balance a t = Except.ok a2) :
    a2 = { a with balance := a.balance + signedEffect t } ∧ 0 ≤ a2.balance := by
  unfold Account.update_balance Account.save at h
  cases ht : t.transaction_type with
  | Deposit =>
    simp only [ht] at h
    split_ifs at h with hneg
    cases h
    refine ⟨by simp [signedEffect, ht], ?_⟩
    simpa using le_of_not_lt hneg
  | Withdraw =>
    simp only [ht] at h
    split_ifs at h with hneg
    cases h
    refine ⟨by simp [signedEffect, ht, sub_eq_add_neg], ?_⟩
    simpa using le_of_not_lt hneg

/-- Success characterization of `createTransaction`: the row is
appended, the account's balance gets the signed effect, exactly one
balance mutation is recorded, and the new balance is non-negative. -/
theorem createTransaction_ok_state (s : BankState) (t : Transaction) (acct : Account)
    (hf : findAccount s t.account_number = some acct)
    (hok : (createTransaction s t).error = none) :
    (createTransaction s t).state =
      { accounts :=
          setAccountAt s.accounts acct.account_number
            { acct with balance := acct.balance + signedEffect t },
        transactions := s.transactions ++ [t] } ∧
    0 ≤ acct.balance + signedEffect t ∧
    (createTransaction s t).muts = [signedEffect t] := by
  simp only [createTransaction, hf] at hok ⊢
  split_ifs at hok ⊢
  cases hub : Account.update_balance acct t with
  | error e2 => simp [hub] at hok
  | ok acct2 =>
    simp only [hub] at hok ⊢
    obtain ⟨ha2, hnn⟩ := update_balance_ok acct t acct2 hub
    subst ha2
    exact ⟨rfl, by simpa using hnn, by trivial⟩

/-- Success characterization of `updateTransaction`: the row is
replaced in place, the NEW transaction's effect is applied to the
account referenced by the new field set, exactly one balance mutation
is recorded, and the new balance is non-negative. -/
theorem updateTransaction_ok_state (s : BankState) (tid : String) (t : Transaction)
    (acct : Account)
    (hf : findAccount s t.account_number = some acct)
    (hok : (updateTransaction s tid t).error = none) :
    (updateTransaction s tid t).state =
      { accounts :=
          setAccountAt s.accounts acct.account_number
            { acct with balance := acct.balance + signedEffect t },
        transactions :=
          s.transactions.map (fun x => if x.transaction_id = tid then t else x) } ∧
    0 ≤ acct.balance + signedEffect t ∧
    (updateTransaction s tid t).muts = [signedEffect t] := by
  cases hold : s.transactions.find? (fun x => x.transaction_id == tid) with
  | none => simp [updateTransaction, hold] at hok
  | some old =>
    simp only [updateTransaction, hf, hold] at hok ⊢
    split_ifs at hok ⊢
    cases hub : Account.update_balance acct t with
    | error e2 => simp [hub] at hok
    | ok acct2 =>
      simp only [hub] at hok ⊢
      obtain ⟨ha2, hnn⟩ := update_balance_ok acct t acct2 hub
      subst ha2
      exact ⟨rfl, by simpa using hnn, by trivial⟩

/-- Lemma: `Account.save` succeeds exactly on a non-negative balance and then
persists the record unchanged. -/
theorem save_ok (a a2 : Account) (h : Account.save a = Except.ok a2) :
    a2 = a ∧ 0 ≤ a2.balance := by
  unfold Account.save at h
  split_ifs at h with hneg
  cases h
  exact ⟨rfl, le_of_not_lt hneg⟩

/-- With pairwise-distinct transaction ids, erasing the row keyed `tid`
leaves no row keyed `tid`. -/
theorem eraseP_id_ne (l : List Transaction) (tid : String)
    (h : (l.map Transaction.transaction_id).Nodup) :
    ∀ x ∈ l.eraseP (fun x => x.transaction_id == tid), x.transaction_id ≠ tid := by
  induction l with
  | nil =>
    intro x hx
    simp at hx
  | cons t l ih =>
    rw [List.map_cons, List.nodup_cons] at h
    by_cases ht : t.transaction_id = tid
    · rw [List.eraseP_cons_of_pos (p := fun x : Transaction => x.transaction_id == tid)
          (show (t.transaction_id == tid) = true by simpa using ht)]
      intro x hx hxx
      exact h.1 (by rw [ht, ← hxx]; exact List.mem_map_of_mem _ hx)
    · rw [List.eraseP_cons_of_neg (p := fun x : Transaction => x.transaction_id == tid)
          (show ¬ (t.transaction_id == tid) = true by simpa using ht)]
      intro x hx
      rcases List.mem_cons.mp hx with rfl | hx2
      · exact ht
      · exact ih h.2 x hx2

theorem find?_balance_set (accounts : List Account) (acct : Account) (num : String) (r : Rat)
    (hkey : acct.account_number = num)
    (hsome : (accounts.find? (fun b => b.account_number == num)).isSome = true) :
    (setAccountAt accounts acct.account_number { acct with balance := r }).find?
        (fun b => b.account_number == num) = some { acct with balance := r } := by
  rw [hkey]
  exact find?_setAccountAt_self accounts num _ (by simp [hkey]) hsome

/-- After a successful creation, the referenced account's row holds the
old balance plus the transaction's signed effect. -/
theorem createTransaction_findAccount (s : BankState) (t : Transaction) (acct : Account)
    (hf : findAccount s t.account_number = some acct)
    (hok : (createTransaction s t).error = none) :
    findAccount (createTransaction s t).state t.account_number
      = some { acct with balance := acct.balance + signedEffect t } := by
  obtain ⟨hstate, _, _⟩ := createTransaction_ok_state s t acct hf hok
  have hkey := findAccount_key s t.account_number acct hf
  have hsome : (s.accounts.find? (fun b => b.account_number == t.account_number)).isSome = true := by
    unfold findAccount at hf
    rw [hf]
    rfl
  unfold findAccount
  rw [hstate]
  exact find?_balance_set s.accounts acct t.account_number _ hkey hsome

/-- After a successful update, the account referenced by the NEW field
set holds its old balance plus the NEW transaction's signed effect. -/
theorem updateTransaction_findAccount (s : BankState) (tid : String) (t : Transaction)
    (acct : Account)
    (hf : findAccount s t.account_number = some acct)
    (hok : (updateTransaction s tid t).error = none) :
    findAccount (updateTransaction s tid t).state t.account_number
      = some { acct with balance := acct.balance + signedEffect t } := by
  obtain ⟨hstate, _, _⟩ := updateTransaction_ok_state s tid t acct hf hok
  have hkey := findAccount_key s t.account_number acct hf
  have hsome : (s.accounts.find? (fun b => b.account_number == t.account_number)).isSome = true := by
    unfold findAccount at hf
    rw [hf]
    rfl
  unfold findAccount
  rw [hstate]
  exact find?_balance_set s.accounts acct t.account_number _ hkey hsome

/-! ### Claim theorems -/

/-- C2: if every persisted account balance is non-negative and an
operation of the system (account create/update/delete, transaction
create/update/delete) succeeds, every persisted account balance is
still non-negative afterwards: `balance ≥ 0` is an invariant of all
reachable states. -/
theorem C2_balance_nonneg_invariant (s : BankState) (c : Cmd)
    (hs : goodState s) (hok : (applyCmd s c).error = none) :
    goodState (applyCmd s c).state := by
  cases c with
  | createAcc a =>
    simp only [applyCmd, createAccount] at hok ⊢
    split_ifs at hok ⊢
    cases hc : Account.clean true a with
    | some e => simp [hc] at hok
    | none =>
      simp only [hc] at hok ⊢
      cases hsv : Account.save a with
      | error e => simp [hsv] at hok
      | ok a2 =>
        simp only [hsv] at hok ⊢
        obtain ⟨rfl, hnn⟩ := save_ok a a2 hsv
        simp only [goodState]
        intro b hb
        rcases List.mem_append.mp hb with hb2 | hb2
        · exact hs b hb2
        · rw [List.mem_singleton] at hb2
          subst hb2
          exact hnn
  | updateAcc num a =>
    simp only [applyCmd, updateAccount] at hok ⊢
    cases hfa : findAccount s num with
    | none => simp [hfa] at hok
    | some old =>
      simp only [hfa] at hok ⊢
      have hclean : Account.clean false a = none := by simp [Account.clean]
      simp only [hclean] at hok ⊢
      cases hsv : Account.save a with
      | error e => simp [hsv] at hok
      | ok a2 =>
        simp only [hsv] at hok ⊢
        obtain ⟨rfl, hnn⟩ := save_ok a a2 hsv
        simp only [goodState]
        intro b hb
        rcases mem_setAccountAt s.accounts num _ b hb with rfl | hb2
        · exact hnn
        · exact hs b hb2
  | deleteAcc num =>
    simp only [applyCmd, deleteAccount] at hok ⊢
    cases hfa : findAccount s num with
    | none => simp [hfa] at hok
    | some old =>
      simp only [hfa] at hok ⊢
      simp only [goodState]
      intro b hb
      exact hs b ((List.eraseP_sublist _).subset hb)
  | createTx t =>
    simp only [applyCmd] at hok ⊢
    cases hfa : findAccount s t.account_number with
    | none => simp [createTransaction, hfa] at hok
    | some acct =>
      obtain ⟨hstate, hnn, _⟩ := createTransaction_ok_state s t acct hfa hok
      rw [hstate]
      simp only [goodState]
      intro b hb
      rcases mem_setAccountAt s.accounts acct.account_number _ b hb with rfl | hb2
      · simpa using hnn
      · exact hs b hb2
  | updateTx tid t =>
    simp only [applyCmd] at hok ⊢
    cases hfa : findAccount s t.account_number with
    | none =>
      exfalso
      cases hold : s.transactions.find? (fun x => x.transaction_id == tid) with
      | none => simp [updateTransaction, hold] at hok
      | some old => simp [updateTransaction, hold, hfa] at hok
    | some acct =>
      obtain ⟨hstate, hnn, _⟩ := updateTransaction_ok_state s tid t acct hfa hok
      rw [hstate]
      simp only [goodState]
      intro b hb
      rcases mem_setAccountAt s.accounts acct.account_number _ b hb with rfl | hb2
      · simpa using hnn
      · exact hs b hb2
  | deleteTx tid =>
    simp only [applyCmd, deleteTransaction] at hok ⊢
    cases hft : s.transactions.find? (fun x => x.transaction_id == tid) with
    | none => simp [hft] at hok
    | some tx =>
      simp only [hft] at hok ⊢
      exact hs

/-- C3: a Withdraw creation whose amount strictly exceeds the
account's current (non-negative) balance fails with InsufficientFunds,
persists no transaction row, changes no balance, and performs no
balance mutation: the entire state is returned unchanged. -/
theorem C3_withdraw_insufficient_funds (s : BankState) (t : Transaction) (acct : Account)
    (hf : findAccount s t.account_number = some acct)
    (hbal : 0 ≤ acct.balance)
    (hdup : ¬ ∃ x ∈ s.transactions, x.transaction_id = t.transaction_id)
    (hw : t.transaction_type = TransactionType.Withdraw)
    (hamt : acct.balance < t.amount) :
    createTransaction s t = ⟨s, some BankError.InsufficientFunds, []⟩ := by
  have hnn : ¬ t.amount < 0 := not_lt.mpr (le_trans hbal (le_of_lt hamt))
  simp only [createTransaction, hf, if_neg hdup, if_neg hnn, if_pos (And.intro hw hamt)]

/-- C4: for an account with balance `B`, a sequence of transaction
creations on it that all succeed leaves the account's balance at `B`
plus the sum of the transactions' signed effects (`+amount` for a
Deposit, `-amount` for a Withdraw). -/
theorem C4_sequence_of_creations_sums (ts : List Transaction) :
    ∀ (s : BankState) (num : String) (acct : Account),
      (∀ t ∈ ts, t.account_number = num) →
      findAccount s num = some acct →
      (runCreates s ts).2 = none →
      ∃ acct2, findAccount (runCreates s ts).1 num = some acct2 ∧
        acct2.balance = acct.balance + (ts.map signedEffect).sum := by
  induction ts with
  | nil =>
    intro s num acct _ hf _
    exact ⟨acct, by simpa [runCreates] using hf, by simp⟩
  | cons t ts ih =>
    intro s num acct hall hf hok
    cases herr : (createTransaction s t).error with
    | some e =>
      exfalso
      simp [runCreates, herr] at hok
    | none =>
      have hnum : t.account_number = num := hall t (List.mem_cons_self t ts)
      have hf2 : findAccount s t.account_number = some acct := by
        rw [hnum]
        exact hf
      have hfind := createTransaction_findAccount s t acct hf2 herr
      rw [hnum] at hfind
      have hrun : runCreates s (t :: ts) = runCreates (createTransaction s t).state ts := by
        simp [runCreates, herr]
      rw [hrun] at hok ⊢
      obtain ⟨acct2, h1, h2⟩ := ih (createTransaction s t).state num
        { acct with balance := acct.balance + signedEffect t }
        (fun x hx => hall x (List.mem_cons_of_mem t hx)) hfind hok
      refine ⟨acct2, h1, ?_⟩
      rw [h2]
      simp [add_assoc]

/-- C5: creating an account with a non-positive opening balance (and a
fresh account number) fails with InvalidBalance and persists nothing:
the state is returned unchanged. -/
theorem C5_create_nonpositive_balance_rejected (s : BankState) (a : Account)
    (hdup : ¬ ∃ b ∈ s.accounts, b.account_number = a.account_number)
    (hbal : a.balance ≤ 0) :
    createAccount s a = ⟨s, some BankError.InvalidBalance, []⟩ := by
  have hclean : Account.clean true a = some BankError.InvalidBalance := by
    simp [Account.clean, hbal]
  simp only [createAccount, if_neg hdup, hclean]

/-- C6: a successful write to the transaction ledger (creation or
update) performs exactly one balance mutation on the referenced
account: the trace of persisted balance deltas is exactly the
singleton list with the transaction's signed effect — never empty,
never longer. The creation half (over `s1`, `t1`) and the update half
(over `s2`, `tid`, `t2`) quantify over disjoint variables, so each is
a universal statement about every successful write of its kind. -/
theorem C6_exactly_one_balance_mutation (s1 : BankState) (t1 : Transaction)
    (s2 : BankState) (tid : String) (t2 : Transaction)
    (hc : (createTransaction s1 t1).error = none)
    (hu : (updateTransaction s2 tid t2).error = none) :
    (createTransaction s1 t1).muts = [signedEffect t1] ∧
    (updateTransaction s2 tid t2).muts = [signedEffect t2] := by
  constructor
  · cases hfa : findAccount s1 t1.account_number with
    | none =>
      exfalso
      simp [createTransaction, hfa] at hc
    | some acct => exact (createTransaction_ok_state s1 t1 acct hfa hc).2.2
  · cases hfa : findAccount s2 t2.account_number with
    | none =>
      exfalso
      cases hold : s2.transactions.find? (fun x => x.transaction_id == tid) with
      | none => simp [updateTransaction, hold] at hu
      | some old => simp [updateTransaction, hold, hfa] at hu
    | some acct => exact (updateTransaction_ok_state s2 tid t2 acct hfa hu).2.2

/-- C7: deleting a committed transaction succeeds, removes exactly
that row (under the table's unique-id constraint no row with that id
remains), and leaves the accounts table — every account record, hence
every balance and every other field — untouched. -/
theorem C7_delete_transaction_frame (s : BankState) (tid : String) (tx : Transaction)
    (hf : s.transactions.find? (fun x => x.transaction_id == tid) = some tx)
    (hnodup : (s.transactions.map Transaction.transaction_id).Nodup) :
    (deleteTransaction s tid).error = none ∧
    (deleteTransaction s tid).state.accounts = s.accounts ∧
    (deleteTransaction s tid).state.transactions
      = s.transactions.eraseP (fun x => x.transaction_id == tid) ∧
    ∀ x ∈ (deleteTransaction s tid).state.transactions, x.transaction_id ≠ tid := by
  simp only [deleteTransaction, hf]
  exact ⟨trivial, trivial, trivial, eraseP_id_ne s.transactions tid hnodup⟩

/-- C8: `listTransactionsForAccount` (modelled from the spec, see its
definition) is a pure query: when the account number does not resolve
it fails with AccountNotFound; when the account exists it returns
exactly that account's transactions, a sub-sequence of the
creation-ordered table (hence in creation order), and the empty list —
not an error — when the account has no transactions. -/
theorem C8_list_transactions_for_account (s : BankState) (num : String) :
    ((findAccount s num).isNone = true →
      listTransactionsForAccount s num = Except.error BankError.AccountNotFound) ∧
    ((findAccount s num).isSome = true →
      listTransactionsForAccount s num
        = Except.ok (s.transactions.filter (fun t => t.account_number == num)) ∧
      List.Sublist (s.transactions.filter (fun t => t.account_number == num)) s.transactions ∧
      ((∀ t ∈ s.transactions, ¬ t.account_number = num) →
        listTransactionsForAccount s num = Except.ok [])) := by
  cases hfa : findAccount s num with
  | none =>
    refine ⟨fun _ => ?_, fun hcontra => ?_⟩
    · simp [listTransactionsForAccount, hfa]
    · simp at hcontra
  | some acct =>
    refine ⟨fun hcontra => by simp at hcontra, fun _ => ?_⟩
    refine ⟨by simp [listTransactionsForAccount, hfa], List.filter_sublist _, fun hnone => ?_⟩
    have hempty : s.transactions.filter (fun t => t.account_number == num) = [] := by
      rw [List.filter_eq_nil_iff]
      intro t ht
      simpa using hnone t ht
    simp [listTransactionsForAccount, hfa, hempty]

/-- C9: for an existing account, an update whose new field set carries
a strictly negative balance is rejected by `Account.save` before any
write — the operation fails with InvalidBalance and returns the state
unchanged (rejection of negative balances is not limited to
creation). -/
theorem C9_update_negative_balance_rejected (s : BankState) (num : String) (a old : Account)
    (hf : findAccount s num = some old)
    (hneg : a.balance < 0) :
    updateAccount s num a = ⟨s, some BankError.InvalidBalance, []⟩ := by
  have hclean : Account.clean false a = none := by simp [Account.clean]
  have hsv : Account.save a = Except.error BankError.InvalidBalance := by
    simp [Account.save, hneg]
  simp only [updateAccount, hf, hclean, hsv]

/-- C10: boundary behaviour at exactly zero. A Withdraw whose amount
equals the account's current balance succeeds (the sufficiency check
is strict `amount > balance`) and leaves the balance exactly 0; and
`Account.save` accepts a record whose balance is exactly 0 (only
strictly negative balances are rejected there). -/
theorem C10_zero_boundary (s : BankState) (t : Transaction) (acct a : Account)
    (hf : findAccount s t.account_number = some acct)
    (hdup : ¬ ∃ x ∈ s.transactions, x.transaction_id = t.transaction_id)
    (hw : t.transaction_type = TransactionType.Withdraw)
    (hamt : t.amount = acct.balance)
    (hpos : 0 ≤ acct.balance)
    (hza : a.balance = 0) :
    ((createTransaction s t).error = none ∧
     findAccount (createTransaction s t).state t.account_number
       = some { acct with balance := 0 }) ∧
    Account.save a = Except.ok a := by
  have hns : ¬ t.amount < 0 := by
    rw [hamt]
    exact not_lt.mpr hpos
  have hnw : ¬ (t.transaction_type = TransactionType.Withdraw ∧ acct.balance < t.amount) := by
    rintro ⟨_, hlt⟩
    rw [hamt] at hlt
    exact lt_irrefl _ hlt
  have hub : Account.update_balance acct t = Except.ok { acct with balance := 0 } := by
    simp [Account.update_balance, Account.save, hw, hamt]
  have herr : (createTransaction s t).error = none := by
    simp only [createTransaction, hf, if_neg hdup, if_neg hns, if_neg hnw, hub]
  have hfind := createTransaction_findAccount s t acct hf herr
  have hcast : ({ acct with balance := acct.balance + signedEffect t } : Account)
      = { acct with balance := 0 } := by
    simp [signedEffect, hw, hamt]
  refine ⟨⟨herr, ?_⟩, by simp [Account.save, hza]⟩
  rw [hfind, hcast]

/-! ### C1: what a transaction update does to the balance -/

/-- Concrete fixture for the update semantics: one account `A1` with
balance 1000 whose history holds one committed Deposit of 500. -/
def cexAccount : Account :=
  ⟨"A1", 1000, "Jane Doe", AccountType.Savings⟩

def cexOldTx : Transaction :=
  ⟨"T1", "A1", 500, TransactionType.Deposit, "initial deposit", "Success"⟩

def cexNewTx : Transaction :=
  ⟨"T1", "A1", 200, TransactionType.Deposit, "corrected deposit", "Success"⟩

def cexState : BankState :=
  ⟨[cexAccount], [cexOldTx]⟩

/-- C1 counterexample: updating the committed Deposit of 500 down to a
Deposit of 200 succeeds, but the persisted balance becomes
1000 + 200 = 1200, not the 1000 - 500 + 200 = 700 the claim predicts:
the source applies the new effect without reversing the old one. -/
theorem C1_counterexample :
    (updateTransaction cexState "T1" cexNewTx).error = none ∧
    findAccount (updateTransaction cexState "T1" cexNewTx).state "A1"
      = some { cexAccount with balance := 1200 } ∧
    ¬ ((1200 : Rat)
        = cexAccount.balance - signedEffect cexOldTx + signedEffect cexNewTx) := by
  with_unfolding_all decide

/-- C1 amended: a successful update replaces the transaction record in
place and changes the referenced account's balance by exactly the NEW
transaction's signed effect; the old transaction's effect is NOT
reversed (net change = +signedEffect(new T), not
-signedEffect(old T) + signedEffect(new T)). -/
theorem C1_update_applies_new_effect_only (s : BankState) (tid : String) (t : Transaction)
    (acct : Account)
    (hf : findAccount s t.account_number = some acct)
    (hok : (updateTransaction s tid t).error = none) :
    (updateTransaction s tid t).state.transactions
      = s.transactions.map (fun x => if x.transaction_id = tid then t else x) ∧
    findAccount (updateTransaction s tid t).state t.account_number
      = some { acct with balance := acct.balance + signedEffect t } := by
  obtain ⟨hstate, _, _⟩ := updateTransaction_ok_state s tid t acct hf hok
  exact ⟨by rw [hstate], updateTransaction_findAccount s tid t acct hf hok⟩

theorem C1_update_applies_new_effect_only_witness :
    (updateTransaction cexState "T1" cexNewTx).state.transactions
      = cexState.transactions.map (fun x => if x.transaction_id = "T1" then cexNewTx else x) ∧
    findAccount (updateTransaction cexState "T1" cexNewTx).state cexNewTx.account_number
      = some { cexAccount with balance := cexAccount.balance + signedEffect cexNewTx } :=
  C1_update_applies_new_effect_only cexState "T1" cexNewTx cexAccount (by with_unfolding_all decide) (by with_unfolding_all decide)

/-! ### Witnesses: the theorems applied at concrete inputs -/

/-- Witness fixture: account `A1` holding 100. -/
def wAcct : Account :=
  ⟨"A1", 100, "Jane Roe", AccountType.Savings⟩

def wState : BankState :=
  ⟨[wAcct], []⟩

def wDeposit : Transaction :=
  ⟨"T1", "A1", 40, TransactionType.Deposit, "salary", "ok"⟩

def wWithdraw : Transaction :=
  ⟨"T2", "A1", 30, TransactionType.Withdraw, "groceries", "ok"⟩

theorem C2_balance_nonneg_invariant_witness :
    goodState (applyCmd wState (Cmd.createTx wDeposit)).state :=
  C2_balance_nonneg_invariant wState (Cmd.createTx wDeposit)
    (by unfold goodState wState wAcct; with_unfolding_all decide) (by with_unfolding_all decide)

theorem C3_withdraw_insufficient_funds_witness :
    createTransaction wState ⟨"T8", "A1", 250, TransactionType.Withdraw, "too big", "ok"⟩
      = ⟨wState, some BankError.InsufficientFunds, []⟩ :=
  C3_withdraw_insufficient_funds wState
    ⟨"T8", "A1", 250, TransactionType.Withdraw, "too big", "ok"⟩ wAcct
    (by with_unfolding_all decide) (by with_unfolding_all decide) (by with_unfolding_all decide) (by with_unfolding_all decide) (by with_unfolding_all decide)

theorem C4_sequence_of_creations_sums_witness :
    ∃ acct2, findAccount (runCreates wState [wDeposit, wWithdraw]).1 "A1" = some acct2 ∧
      acct2.balance = wAcct.balance + ([wDeposit, wWithdraw].map signedEffect).sum :=
  C4_sequence_of_creations_sums [wDeposit, wWithdraw] wState "A1" wAcct
    (by with_unfolding_all decide) (by with_unfolding_all decide) (by with_unfolding_all decide)

theorem C5_create_nonpositive_balance_rejected_witness :
    createAccount ⟨[], []⟩ ⟨"Z1", 0, "Zed Moe", AccountType.Checking⟩
      = ⟨⟨[], []⟩, some BankError.InvalidBalance, []⟩ :=
  C5_create_nonpositive_balance_rejected ⟨[], []⟩
    ⟨"Z1", 0, "Zed Moe", AccountType.Checking⟩ (by with_unfolding_all decide) (by with_unfolding_all decide)

theorem C6_exactly_one_balance_mutation_witness :
    (createTransaction wState wDeposit).muts = [signedEffect wDeposit] ∧
    (updateTransaction ⟨[wAcct], [wDeposit]⟩ "T1"
        ⟨"T1", "A1", 25, TransactionType.Deposit, "corrected salary", "ok"⟩).muts
      = [signedEffect ⟨"T1", "A1", 25, TransactionType.Deposit, "corrected salary", "ok"⟩] :=
  C6_exactly_one_balance_mutation wState wDeposit ⟨[wAcct], [wDeposit]⟩ "T1"
    ⟨"T1", "A1", 25, TransactionType.Deposit, "corrected salary", "ok"⟩
    (by with_unfolding_all decide) (by with_unfolding_all decide)

theorem C7_delete_transaction_frame_witness :
    (deleteTransaction ⟨[wAcct], [wDeposit]⟩ "T1").error = none ∧
    (deleteTransaction ⟨[wAcct], [wDeposit]⟩ "T1").state.accounts
      = (⟨[wAcct], [wDeposit]⟩ : BankState).accounts ∧
    (deleteTransaction ⟨[wAcct], [wDeposit]⟩ "T1").state.transactions
      = (⟨[wAcct], [wDeposit]⟩ : BankState).transactions.eraseP
          (fun x => x.transaction_id == "T1") ∧
    ∀ x ∈ (deleteTransaction ⟨[wAcct], [wDeposit]⟩ "T1").state.transactions,
      x.transaction_id ≠ "T1" :=
  C7_delete_transaction_frame ⟨[wAcct], [wDeposit]⟩ "T1" wDeposit (by with_unfolding_all decide) (by with_unfolding_all decide)

theorem C8_list_transactions_for_account_witness :
    listTransactionsForAccount wState "A1" = Except.ok [] :=
  ((C8_list_transactions_for_account wState "A1").2 (by with_unfolding_all decide)).2.2 (by with_unfolding_all decide)

theorem C9_update_negative_balance_rejected_witness :
    updateAccount wState "A1" ⟨"A1", -5, "Jane Roe", AccountType.Savings⟩
      = ⟨wState, some BankError.InvalidBalance, []⟩ :=
  C9_update_negative_balance_rejected wState "A1"
    ⟨"A1", -5, "Jane Roe", AccountType.Savings⟩ wAcct (by with_unfolding_all decide) (by with_unfolding_all decide)

theorem C10_zero_boundary_witness :
    ((createTransaction wState ⟨"T9", "A1", 100, TransactionType.Withdraw, "all", "ok"⟩).error
        = none ∧
     findAccount
        (createTransaction wState
          ⟨"T9", "A1", 100, TransactionType.Withdraw, "all", "ok"⟩).state "A1"
       = some { wAcct with balance := 0 }) ∧
    Account.save ⟨"Z0", 0, "Zed Moe", AccountType.Checking⟩
      = Except.ok ⟨"Z0", 0, "Zed Moe", AccountType.Checking⟩ :=
  C10_zero_boundary wState ⟨"T9", "A1", 100, TransactionType.Withdraw, "all", "ok"⟩ wAcct
    ⟨"Z0", 0, "Zed Moe", AccountType.Checking⟩
    (by with_unfolding_all decide) (by with_unfolding_all decide) (by with_unfolding_all decide) (by with_unfolding_all decide) (by with_unfolding_all decide) (by with_unfolding_all decide)
